import Mathlib

/-!
Shallow embedding of `src/Mesh.js` (the Famous engine `Mesh` renderable).

JavaScript values that flow through the command queue are modelled by the
inductive type `Val`: string tags, numbers, arrays (vectors), opaque object
references, and `undefined` (returned by out-of-range indexing and by
`Array.prototype.shift` on an empty array).

Effects on the dispatcher are made explicit: `sendDrawCommand` emissions are
collected in an output list, and `dirtyRenderable` calls are counted in the
`dirtyCount` field of the mesh state.  `clean` returns the emitted command
list together with either the updated state and boolean result, or `none`
when the method throws (dereferencing `this._geometry.spec` with no geometry
assigned), in which case the commands emitted before the throw are still
reported.
-/

/-- A JavaScript value as it appears in the mesh command queue. -/
inductive Val where
  | str : String → Val
  | num : Int → Val
  | arr : List Int → Val
  | obj : Nat → Val
  | undef : Val
  deriving DecidableEq, Repr

/-- `geometry.spec`: buffer metadata and the pending-invalidation list. -/
structure GeometrySpec where
  type : Val
  dynamic : Val
  bufferNames : List Val
  bufferValues : List Val
  bufferSpacings : List Val
  invalidations : List Nat
  deriving DecidableEq, Repr

/-- A geometry object; `ref` models its JavaScript object identity, used by
the `!==` comparison in `setGeometry`. -/
structure Geometry where
  ref : Nat
  id : Int
  spec : GeometrySpec
  deriving DecidableEq, Repr

/-- The state of one `Mesh` instance. `dirtyCount` counts the
`dispatch.dirtyRenderable` calls the mesh has made. -/
structure Mesh where
  id : Nat
  queue : List Val
  size : List Int
  uniforms : List Val
  buffers : List Val
  geometry : Option Geometry
  baseColorCache : Option Val
  dirtyCount : Nat
  deriving DecidableEq, Repr

/-- `Mesh.prototype._receiveTransformChange`: dirty the renderable and push
`GL_UNIFORMS`, `transform`, and the matrix. -/
def receiveTransformChange (matrix : Val) (m : Mesh) : Mesh :=
  { m with
    dirtyCount := m.dirtyCount + 1,
    queue := m.queue ++ [Val.str "GL_UNIFORMS", Val.str "transform", matrix] }

/-- `Mesh.prototype._receiveSizeChange`: dirty the renderable, cache the
top-down size componentwise into `_size`, and push `GL_UNIFORMS`, `size`,
and the size vector.  The notification payload is the 3-component result of
the provider's `getTopDownSize()`. -/
def receiveSizeChange (a b c : Int) (m : Mesh) : Mesh :=
  { m with
    dirtyCount := m.dirtyCount + 1,
    size := [a, b, c],
    queue := m.queue ++ [Val.str "GL_UNIFORMS", Val.str "size", Val.arr [a, b, c]] }

/-- `Mesh.prototype._receiveOriginChange`: dirty the renderable and push
`GL_UNIFORMS`, `origin`, and the origin value. -/
def receiveOriginChange (origin : Val) (m : Mesh) : Mesh :=
  { m with
    dirtyCount := m.dirtyCount + 1,
    queue := m.queue ++ [Val.str "GL_UNIFORMS", Val.str "origin", origin] }

/-- `Mesh.prototype._receiveOpacityChange`: dirty the renderable and push
`GL_UNIFORMS`, `opacity`, and the opacity value. -/
def receiveOpacityChange (opacity : Val) (m : Mesh) : Mesh :=
  { m with
    dirtyCount := m.dirtyCount + 1,
    queue := m.queue ++ [Val.str "GL_UNIFORMS", Val.str "opacity", opacity] }

/-- The `Mesh` constructor followed by `init()`: queue starts as
`['GL_CREATE_MESH']`, `_size` is set to `[0,0,0]` and then overwritten with
the empty array, and `init` immediately replays the dispatcher's current
transform and origin through the change handlers.  `_geometry` ends
`undefined`. -/
def construct (idn : Nat) (matrix origin : Val) : Mesh :=
  let m : Mesh :=
    { id := idn,
      queue := [Val.str "GL_CREATE_MESH"],
      size := [],
      uniforms := [],
      buffers := [],
      geometry := none,
      baseColorCache := none,
      dirtyCount := 0 }
  receiveOriginChange origin (receiveTransformChange matrix m)

/-- `Mesh.prototype.getSize`: returns `this._size`. -/
def getSize (m : Mesh) : List Int :=
  m.size

/-- The `this._geometry !== geometry` test of `setGeometry`:
object-identity comparison of the held reference with the argument. -/
def sameGeom : Option Geometry → Geometry → Bool
  | none, _ => false
  | some h, g => h.ref == g.ref

/-- `Mesh.prototype.setGeometry`: when the reference differs from the held
one, push `GL_SET_GEOMETRY`, the geometry id, `spec.type` and `spec.dynamic`
and adopt the reference; otherwise do nothing. -/
def setGeometry (g : Geometry) (m : Mesh) : Mesh :=
  if sameGeom m.geometry g then m
  else
    { m with
      queue := m.queue ++
        [Val.str "GL_SET_GEOMETRY", Val.num g.id, g.spec.type, g.spec.dynamic],
      geometry := some g }

/-- The invalidation-replay loop of `clean`: `i` starts at
`invalidations.length`; each iteration of `while (i--)` pops the last
invalidation entry (the popped value is bound to `bufferIndex` but never
used) and emits `GL_BUFFER_DATA`, the geometry id, and
`bufferNames[i]`, `bufferValues[i]`, `bufferSpacings[i]` at the decremented
loop counter `i`.  Returns the emitted commands and the invalidation list
left after the pops. -/
def invalLoop (g : Geometry) : Nat → List Nat → List Val × List Nat
  | 0, inv => ([], inv)
  | i + 1, inv =>
      let rest := invalLoop g i inv.dropLast
      ([Val.str "GL_BUFFER_DATA", Val.num g.id,
        g.spec.bufferNames.getD i Val.undef,
        g.spec.bufferValues.getD i Val.undef,
        g.spec.bufferSpacings.getD i Val.undef] ++ rest.1, rest.2)

/-- The queue-drain loop of `clean`: `i` starts at `queue.length`; each
iteration of `while (i--)` sends `queue.shift()` (which yields `undefined`
on an empty array).  Returns the emitted commands and the remaining queue. -/
def queueLoop : Nat → List Val → List Val × List Val
  | 0, q => ([], q)
  | i + 1, [] =>
      let r := queueLoop i []
      (Val.undef :: r.1, r.2)
  | i + 1, v :: q =>
      let r := queueLoop i q
      (v :: r.1, r.2)

/-- `Mesh.prototype.clean`: emit `WITH` and the current render path, then
replay geometry invalidations, then drain the queue, returning
`!this.queue.length`.  When `this._geometry` is `undefined`, the access
`this._geometry.spec` throws after the two header commands have already been
sent; this is the `none` result, paired with the commands emitted before the
throw. -/
def clean (path : Val) (m : Mesh) : List Val × Option (Mesh × Bool) :=
  match m.geometry with
  | none => ([Val.str "WITH", path], none)
  | some g =>
      let r := invalLoop g g.spec.invalidations.length g.spec.invalidations
      let g2 : Geometry := { g with spec := { g.spec with invalidations := r.2 } }
      let q := queueLoop m.queue.length m.queue
      ([Val.str "WITH", path] ++ r.1 ++ q.1,
        some ({ m with geometry := some g2, queue := q.2 }, q.2.isEmpty))

/-- A material-input argument: either a plain value, or an object exposing a
`_compile` step whose invocation yields the contained value. -/
inductive MatInput where
  | plain : Val → MatInput
  | compilable : Val → MatInput
  deriving DecidableEq, Repr

/-- The `if (materialExpression._compile) materialExpression =
materialExpression._compile();` step shared by all four material slots. -/
def resolveMat : MatInput → Val
  | .plain v => v
  | .compilable v => v

/-- `Array.isArray`. -/
def isArr : Val → Bool
  | .arr _ => true
  | _ => false

/-- `typeof materialExpression === 'number'`. -/
def isNum : Val → Bool
  | .num _ => true
  | _ => false

/-- `Mesh.prototype.baseColor`: dirty the renderable; arrays are pushed
under `GL_UNIFORMS`, every other resolved value is cached in `_baseColor`
and pushed under `MATERIAL_INPUT`; then push the slot name and the value. -/
def baseColor (e : MatInput) (m : Mesh) : Mesh :=
  let m1 := { m with dirtyCount := m.dirtyCount + 1 }
  let v := resolveMat e
  if isArr v then
    { m1 with queue := m1.queue ++ [Val.str "GL_UNIFORMS", Val.str "baseColor", v] }
  else
    { m1 with
      baseColorCache := some v,
      queue := m1.queue ++ [Val.str "MATERIAL_INPUT", Val.str "baseColor", v] }

/-- `Mesh.prototype.normal`: push `UNIFORM_INPUT` for a numeric scalar and
`MATERIAL_INPUT` otherwise, then the slot name and the value; no dirtying. -/
def normal (e : MatInput) (m : Mesh) : Mesh :=
  let v := resolveMat e
  { m with
    queue := m.queue ++
      [Val.str (if isNum v then "UNIFORM_INPUT" else "MATERIAL_INPUT"),
        Val.str "normal", v] }

/-- `Mesh.prototype.glossiness`: same shape as `normal` for the
`glossiness` slot. -/
def glossiness (e : MatInput) (m : Mesh) : Mesh :=
  let v := resolveMat e
  { m with
    queue := m.queue ++
      [Val.str (if isNum v then "UNIFORM_INPUT" else "MATERIAL_INPUT"),
        Val.str "glossiness", v] }

/-- `Mesh.prototype.metallic`: same shape as `normal` for the `metallic`
slot. -/
def metallic (e : MatInput) (m : Mesh) : Mesh :=
  let v := resolveMat e
  { m with
    queue := m.queue ++
      [Val.str (if isNum v then "UNIFORM_INPUT" else "MATERIAL_INPUT"),
        Val.str "metallic", v] }

/-- A property-change notification delivered by the dispatcher. -/
inductive Notice where
  | transform : Val → Notice
  | size : Int → Int → Int → Notice
  | opacity : Val → Notice
  | origin : Val → Notice
  deriving DecidableEq, Repr

/-- Deliver one notification to the mesh. -/
def applyNotice : Notice → Mesh → Mesh
  | .transform v, m => receiveTransformChange v m
  | .size a b c, m => receiveSizeChange a b c m
  | .opacity v, m => receiveOpacityChange v m
  | .origin v, m => receiveOriginChange v m

/-- Deliver a sequence of notifications, first element first. -/
def applyNotices (ns : List Notice) (m : Mesh) : Mesh :=
  ns.foldl (fun acc n => applyNotice n acc) m

/-- The three queue entries one notification appends. -/
def noticeCmds : Notice → List Val
  | .transform v => [Val.str "GL_UNIFORMS", Val.str "transform", v]
  | .size a b c => [Val.str "GL_UNIFORMS", Val.str "size", Val.arr [a, b, c]]
  | .opacity v => [Val.str "GL_UNIFORMS", Val.str "opacity", v]
  | .origin v => [Val.str "GL_UNIFORMS", Val.str "origin", v]

/-- The queue entries appended by a sequence of notifications, in delivery
order. -/
def noticesCmds : List Notice → List Val
  | [] => []
  | n :: ns => noticeCmds n ++ noticesCmds ns

/-- Number of pending `GL_SET_GEOMETRY` entries in a queue that carry the
given geometry id. -/
def countSetGeom (gid : Int) : List Val → Nat
  | Val.str "GL_SET_GEOMETRY" :: Val.num j :: rest =>
      (if j = gid then 1 else 0) + countSetGeom gid rest
  | _ :: rest => countSetGeom gid rest
  | [] => 0

/-! ## General lemmas about the drain loops -/

/-- Starting the queue-drain loop with `i = queue.length` emits the whole
queue, front first, and leaves it empty. -/
lemma queueLoop_self (q : List Val) : queueLoop q.length q = (q, []) := by
  induction q with
  | nil => rfl
  | cons v q ih => simp [List.length_cons, queueLoop, ih]

/-- Starting the invalidation-replay loop with `i = invalidations.length`
pops every entry: the invalidation list it leaves behind is empty. -/
lemma invalLoop_emptied (g : Geometry) :
    ∀ (n : Nat) (inv : List Nat), inv.length = n → (invalLoop g n inv).2 = [] := by
  intro n
  induction n with
  | zero =>
      intro inv h
      have : inv = [] := List.length_eq_zero.mp h
      subst this
      rfl
  | succ k ih =>
      intro inv h
      simp only [invalLoop]
      exact ih inv.dropLast (by rw [List.length_dropLast, h]; rfl)

/-- Characterization of `clean` on a mesh with an assigned geometry: the
output is the header, then the invalidation replay, then the whole queue in
order; the resulting state has an empty queue and an emptied invalidation
list, and the returned boolean is `true`. -/
lemma clean_eq (m : Mesh) (g : Geometry) (path : Val) (h : m.geometry = some g) :
    clean path m =
      ([Val.str "WITH", path]
          ++ (invalLoop g g.spec.invalidations.length g.spec.invalidations).1
          ++ m.queue,
        some ({ m with
                geometry := some { g with spec := { g.spec with invalidations := [] } },
                queue := [] }, true)) := by
  unfold clean
  rw [h]
  simp only [queueLoop_self m.queue, invalLoop_emptied g g.spec.invalidations.length
    g.spec.invalidations rfl, List.isEmpty_nil]

/-! ## Notification bookkeeping -/

/-- One notification appends exactly its three queue entries. -/
lemma applyNotice_queue (n : Notice) (m : Mesh) :
    (applyNotice n m).queue = m.queue ++ noticeCmds n := by
  cases n <;> rfl

/-- Notifications never touch the geometry reference. -/
lemma applyNotice_geometry (n : Notice) (m : Mesh) :
    (applyNotice n m).geometry = m.geometry := by
  cases n <;> rfl

/-- A notification sequence appends its entries in delivery order. -/
lemma applyNotices_queue (ns : List Notice) :
    ∀ m : Mesh, (applyNotices ns m).queue = m.queue ++ noticesCmds ns := by
  induction ns with
  | nil => intro m; simp [applyNotices, noticesCmds]
  | cons n ns ih =>
      intro m
      show (applyNotices ns (applyNotice n m)).queue = _
      rw [ih, applyNotice_queue]
      simp [noticesCmds]

/-- A notification sequence never touches the geometry reference. -/
lemma applyNotices_geometry (ns : List Notice) :
    ∀ m : Mesh, (applyNotices ns m).geometry = m.geometry := by
  induction ns with
  | nil => intro m; rfl
  | cons n ns ih =>
      intro m
      show (applyNotices ns (applyNotice n m)).geometry = _
      rw [ih, applyNotice_geometry]

/-! ## Concrete fixtures used by witnesses -/

/-- A geometry with one buffer `p` and one pending invalidation entry. -/
def geomW : Geometry :=
  ⟨1, 3, ⟨Val.str "T", Val.str "D", [Val.str "p"], [Val.num 9], [Val.num 1], [0]⟩⟩

/-- A mesh holding `geomW` with an empty opcode queue. -/
def meshW : Mesh :=
  { id := 0, queue := [], size := [], uniforms := [], buffers := [],
    geometry := some geomW, baseColorCache := none, dirtyCount := 0 }

/-! ## Claims -/

/-- Claim C1 (code evaluated at the failing input): on a geometry with
buffers `a`, `b` and the single pending invalidation entry `1`, `clean`
emits the buffer data of index `0` (the decremented loop counter), not of
index `1` (the popped invalidation entry): the command at position 4 of the
output is the buffer name `a`, while the buffer name at the popped index `1`
is `b`.  The popped value bound to `bufferIndex` in the source is never
used. -/
theorem c1_popped_index_unused :
    (clean (Val.str "P") (setGeometry
        ⟨5, 7, ⟨Val.str "T", Val.str "D", [Val.str "a", Val.str "b"],
          [Val.num 10, Val.num 11], [Val.num 1, Val.num 2], [1]⟩⟩
        (construct 0 (Val.str "M") (Val.str "O")))).1.getD 4 Val.undef
      = Val.str "a"
    ∧ [Val.str "a", Val.str "b"].getD 1 Val.undef = Val.str "b"
    ∧ Val.str "a" ≠ Val.str "b" := by
  refine ⟨rfl, rfl, by decide⟩

/-- Claim C2 counterexample: draining a freshly constructed mesh (no
geometry ever assigned) does fail, but the path-selection header `WITH`,
`path` has already reached the output stream, contradicting «no partial
output: no command at all ... reaches the dispatcher's output stream before
the failure». -/
theorem c2_counterexample :
    clean (Val.str "P") (construct 0 (Val.str "M") (Val.str "O"))
      = ([Val.str "WITH", Val.str "P"], none)
    ∧ ([Val.str "WITH", Val.str "P"] : List Val) ≠ [] := by
  refine ⟨rfl, by decide⟩

/-- Claim C2 (amended): calling `clean` on any mesh with no geometry
assigned fails fatally, and exactly the two path-selection header commands
`WITH`, `path` are emitted before the failure. -/
theorem c2_header_before_failure (m : Mesh) (path : Val)
    (h : m.geometry = none) :
    clean path m = ([Val.str "WITH", path], none) := by
  unfold clean
  rw [h]

/-- Witness for claim C2: the amended statement applied to a freshly
constructed mesh. -/
theorem c2_header_before_failure_w :
    clean (Val.str "P") (construct 1 (Val.str "M") (Val.str "O"))
      = ([Val.str "WITH", Val.str "P"], none) :=
  c2_header_before_failure (construct 1 (Val.str "M") (Val.str "O"))
    (Val.str "P") rfl

/-- Claim C3 counterexample: in scenario A (fresh mesh, geometry with one
buffer `position` and one pending invalidation, one `clean`), the actual
output places `GL_SET_GEOMETRY` last — it drains from the queue after the
seeded transform and origin uniforms — whereas the claimed order places it
directly after the header; the two sequences differ. -/
theorem c3_counterexample :
    (clean (Val.str "P") (setGeometry
        ⟨1, 3, ⟨Val.str "T", Val.str "D", [Val.str "position"],
          [Val.num 10], [Val.num 1], [0]⟩⟩
        (construct 0 (Val.str "M") (Val.str "O")))).1
      = [Val.str "WITH", Val.str "P",
          Val.str "GL_BUFFER_DATA", Val.num 3, Val.str "position",
          Val.num 10, Val.num 1,
          Val.str "GL_CREATE_MESH",
          Val.str "GL_UNIFORMS", Val.str "transform", Val.str "M",
          Val.str "GL_UNIFORMS", Val.str "origin", Val.str "O",
          Val.str "GL_SET_GEOMETRY", Val.num 3, Val.str "T", Val.str "D"]
    ∧ [Val.str "WITH", Val.str "P",
          Val.str "GL_BUFFER_DATA", Val.num 3, Val.str "position",
          Val.num 10, Val.num 1,
          Val.str "GL_CREATE_MESH",
          Val.str "GL_UNIFORMS", Val.str "transform", Val.str "M",
          Val.str "GL_UNIFORMS", Val.str "origin", Val.str "O",
          Val.str "GL_SET_GEOMETRY", Val.num 3, Val.str "T", Val.str "D"]
        ≠ [Val.str "WITH", Val.str "P",
          Val.str "GL_SET_GEOMETRY", Val.num 3, Val.str "T", Val.str "D",
          Val.str "GL_BUFFER_DATA", Val.num 3, Val.str "position",
          Val.num 10, Val.num 1,
          Val.str "GL_CREATE_MESH",
          Val.str "GL_UNIFORMS", Val.str "transform", Val.str "M",
          Val.str "GL_UNIFORMS", Val.str "origin", Val.str "O"] := by
  refine ⟨rfl, by decide⟩

/-- Claim C3 (amended): for every fresh mesh assigned a geometry `G` with
exactly one buffer `position` carrying one pending invalidation, a single
`clean` emits, in this exact order: the path-selection header, then
`UPLOAD_BUFFER` for `G.id` and `position`, then `GL_CREATE_MESH`, then
`SET_UNIFORM` for `transform`, then `SET_UNIFORM` for `origin`, and finally
`SET_GEOMETRY` with `(G.id, G.type, G.dynamic)`; afterwards the queue is
empty and the call returns `true`. -/
theorem c3_scenario_a_order (idn gref : Nat) (gid : Int)
    (matrix origin path gtype gdyn bv bs : Val) :
    clean path (setGeometry ⟨gref, gid,
        ⟨gtype, gdyn, [Val.str "position"], [bv], [bs], [0]⟩⟩
        (construct idn matrix origin))
      = ([Val.str "WITH", path,
          Val.str "GL_BUFFER_DATA", Val.num gid, Val.str "position", bv, bs,
          Val.str "GL_CREATE_MESH",
          Val.str "GL_UNIFORMS", Val.str "transform", matrix,
          Val.str "GL_UNIFORMS", Val.str "origin", origin,
          Val.str "GL_SET_GEOMETRY", Val.num gid, gtype, gdyn],
        some (⟨idn, [], [], [], [],
          some ⟨gref, gid, ⟨gtype, gdyn, [Val.str "position"], [bv], [bs], []⟩⟩,
          none, 2⟩, true)) := by
  rfl

/-- Claim C4 counterexample: assigning geometry `g1`, then `g2`, then `g1`
again (no drain in between) leaves two pending `GL_SET_GEOMETRY` entries
for `g1` in the queue, contradicting «never holds more than one pending
GL_SET_GEOMETRY entry for the same geometry». -/
theorem c4_counterexample :
    countSetGeom 10 (setGeometry ⟨1, 10, ⟨Val.str "T", Val.str "D", [], [], [], []⟩⟩
        (setGeometry ⟨2, 20, ⟨Val.str "T", Val.str "D", [], [], [], []⟩⟩
          (setGeometry ⟨1, 10, ⟨Val.str "T", Val.str "D", [], [], [], []⟩⟩
            (construct 0 (Val.str "M") (Val.str "O"))))).queue = 2
    ∧ 1 < countSetGeom 10 (setGeometry ⟨1, 10, ⟨Val.str "T", Val.str "D", [], [], [], []⟩⟩
        (setGeometry ⟨2, 20, ⟨Val.str "T", Val.str "D", [], [], [], []⟩⟩
          (setGeometry ⟨1, 10, ⟨Val.str "T", Val.str "D", [], [], [], []⟩⟩
            (construct 0 (Val.str "M") (Val.str "O"))))).queue := by
  refine ⟨rfl, by decide⟩

/-- Claim C4 (amended): reassigning the currently held geometry reference
is a no-op — it appends nothing and changes no state — and any single
`setGeometry` call either changes nothing or appends exactly one
`GL_SET_GEOMETRY` entry; the original «never more than one pending entry for
the same geometry» fails when assignments alternate between two geometries
(see the counterexample). -/
theorem c4_setGeometry_noop (m : Mesh) (g g2 : Geometry)
    (h : m.geometry = some g) :
    setGeometry g m = m
    ∧ (setGeometry g2 m = m
        ∨ (setGeometry g2 m).queue = m.queue ++
            [Val.str "GL_SET_GEOMETRY", Val.num g2.id, g2.spec.type,
              g2.spec.dynamic]) := by
  constructor
  · unfold setGeometry
    rw [h]
    simp [sameGeom]
  · unfold setGeometry
    cases hs : sameGeom m.geometry g2 with
    | true => exact Or.inl (by simp)
    | false => exact Or.inr (by simp)

/-- Witness for claim C4: the amended statement applied to `meshW`, its
held geometry `geomW`, and a second distinct geometry. -/
theorem c4_setGeometry_noop_w :
    setGeometry geomW meshW = meshW
    ∧ (setGeometry ⟨2, 20, ⟨Val.str "T", Val.str "D", [], [], [], []⟩⟩ meshW = meshW
        ∨ (setGeometry ⟨2, 20, ⟨Val.str "T", Val.str "D", [], [], [], []⟩⟩ meshW).queue
            = meshW.queue ++
              [Val.str "GL_SET_GEOMETRY", Val.num 20, Val.str "T", Val.str "D"]) :=
  c4_setGeometry_noop meshW geomW
    ⟨2, 20, ⟨Val.str "T", Val.str "D", [], [], [], []⟩⟩ rfl

/-- Claim C5 counterexample: assigning `baseColor` the plain numeric scalar
`5` pushes the `MATERIAL_INPUT` tag, not the `UNIFORM_INPUT` tag the claim
requires for plain numeric scalars. -/
theorem c5_counterexample :
    (baseColor (MatInput.plain (Val.num 5))
        (construct 0 (Val.str "M") (Val.str "O"))).queue.getD 7 Val.undef
      = Val.str "MATERIAL_INPUT"
    ∧ Val.str "MATERIAL_INPUT" ≠ Val.str "UNIFORM_INPUT" := by
  refine ⟨rfl, by decide⟩

/-- Claim C5 (amended): classification is per-slot, not uniform across the
four slots: `baseColor` emits `GL_UNIFORMS` for array values and
`MATERIAL_INPUT` for every other value, numeric scalars included;
`normal`, `glossiness` and `metallic` emit `UNIFORM_INPUT` for numeric
scalars and `MATERIAL_INPUT` for every other value, arrays included; in
particular assigning `baseColor` the 3-element array `[1,0,0]` yields a
`GL_UNIFORMS` opcode, not a `MATERIAL_INPUT` opcode. -/
theorem c5_classification (m : Mesh) (e : MatInput) :
    (baseColor e m).queue = m.queue ++
      [Val.str (if isArr (resolveMat e) then "GL_UNIFORMS" else "MATERIAL_INPUT"),
        Val.str "baseColor", resolveMat e]
    ∧ (normal e m).queue = m.queue ++
      [Val.str (if isNum (resolveMat e) then "UNIFORM_INPUT" else "MATERIAL_INPUT"),
        Val.str "normal", resolveMat e]
    ∧ (glossiness e m).queue = m.queue ++
      [Val.str (if isNum (resolveMat e) then "UNIFORM_INPUT" else "MATERIAL_INPUT"),
        Val.str "glossiness", resolveMat e]
    ∧ (metallic e m).queue = m.queue ++
      [Val.str (if isNum (resolveMat e) then "UNIFORM_INPUT" else "MATERIAL_INPUT"),
        Val.str "metallic", resolveMat e]
    ∧ (baseColor (MatInput.plain (Val.arr [1, 0, 0])) m).queue = m.queue ++
      [Val.str "GL_UNIFORMS", Val.str "baseColor", Val.arr [1, 0, 0]] := by
  refine ⟨?_, rfl, rfl, rfl, rfl⟩
  cases hv : isArr (resolveMat e) <;> simp [baseColor, hv]

/-- Claim C6: for every mesh with an assigned geometry and an empty opcode
queue, delivering any sequence of property-change notifications and then
draining emits exactly one path-selection header, then the pending geometry
invalidations, then the notification opcodes in exactly the order the
notifications occurred. -/
theorem c6_notification_fifo (m : Mesh) (g : Geometry) (path : Val)
    (ns : List Notice) (h : m.geometry = some g) (hq : m.queue = []) :
    (clean path (applyNotices ns m)).1
      = [Val.str "WITH", path]
        ++ (invalLoop g g.spec.invalidations.length g.spec.invalidations).1
        ++ noticesCmds ns := by
  have h1 : (applyNotices ns m).geometry = some g := by
    rw [applyNotices_geometry ns m, h]
  have h2 : (applyNotices ns m).queue = noticesCmds ns := by
    rw [applyNotices_queue ns m, hq]
    rfl
  rw [clean_eq (applyNotices ns m) g path h1, h2]

/-- Witness for claim C6: two notifications delivered to `meshW`, whose
geometry has one pending invalidation, drain in notification order after
the header and the invalidation replay. -/
theorem c6_notification_fifo_w :
    (clean (Val.str "P") (applyNotices
        [Notice.transform (Val.str "X"), Notice.opacity (Val.num 1)] meshW)).1
      = [Val.str "WITH", Val.str "P",
          Val.str "GL_BUFFER_DATA", Val.num 3, Val.str "p", Val.num 9, Val.num 1,
          Val.str "GL_UNIFORMS", Val.str "transform", Val.str "X",
          Val.str "GL_UNIFORMS", Val.str "opacity", Val.num 1] :=
  c6_notification_fifo meshW geomW (Val.str "P")
    [Notice.transform (Val.str "X"), Notice.opacity (Val.num 1)] rfl rfl

/-- Claim C7: for every mesh with an assigned geometry and an empty queue,
`clean` is idempotent: the first call returns `true`, and a second call with
no intervening changes emits only the two path-selection header commands
and also returns `true`. -/
theorem c7_drain_idempotent (m : Mesh) (g : Geometry) (path : Val)
    (h : m.geometry = some g) (_hq : m.queue = []) :
    ∃ out1 m1, clean path m = (out1, some (m1, true))
      ∧ ∃ m2, clean path m1 = ([Val.str "WITH", path], some (m2, true)) := by
  refine ⟨_, _, clean_eq m g path h, ?_⟩
  exact ⟨_, clean_eq
    ({ m with
        geometry := some { g with spec := { g.spec with invalidations := [] } },
        queue := [] })
    { g with spec := { g.spec with invalidations := [] } } path rfl⟩

/-- Witness for claim C7: the idempotence statement applied to `meshW`. -/
theorem c7_drain_idempotent_w :
    ∃ out1 m1, clean (Val.str "P") meshW = (out1, some (m1, true))
      ∧ ∃ m2, clean (Val.str "P") m1
          = ([Val.str "WITH", Val.str "P"], some (m2, true)) :=
  c7_drain_idempotent meshW geomW (Val.str "P") rfl rfl

/-- Claim C8 counterexample: on a freshly constructed mesh — a reachable
state in which no size-change notification has been delivered — `getSize`
returns the empty array (the constructor overwrites the initial `[0,0,0]`
with `[]`), which is not a 3-component vector. -/
theorem c8_counterexample :
    getSize (construct 0 (Val.str "M") (Val.str "O")) = ([] : List Int)
    ∧ (getSize (construct 0 (Val.str "M") (Val.str "O"))).length ≠ 3 := by
  refine ⟨rfl, by decide⟩

/-- Claim C8 (amended): `getSize` is a pure accessor returning the cached
`size` field; a size-change notification caches exactly its 3-component
payload, and no other operation — transform, origin or opacity
notifications, geometry assignment, any of the four material-input slots,
or a completed `clean` — changes the cached size; on a freshly constructed
mesh, before any size-change notification, the cached size is the empty
array rather than a 3-component vector. -/
theorem c8_getSize_cache (m : Mesh) (g g2 : Geometry) (a b c : Int)
    (v path mat org : Val) (e : MatInput) (idn : Nat)
    (h : m.geometry = some g) :
    getSize m = m.size
    ∧ getSize (receiveSizeChange a b c m) = [a, b, c]
    ∧ getSize (receiveTransformChange v m) = getSize m
    ∧ getSize (receiveOriginChange v m) = getSize m
    ∧ getSize (receiveOpacityChange v m) = getSize m
    ∧ getSize (setGeometry g2 m) = getSize m
    ∧ getSize (baseColor e m) = getSize m
    ∧ getSize (normal e m) = getSize m
    ∧ getSize (glossiness e m) = getSize m
    ∧ getSize (metallic e m) = getSize m
    ∧ (∃ out m1, clean path m = (out, some (m1, true)) ∧ getSize m1 = getSize m)
    ∧ getSize (construct idn mat org) = [] := by
  refine ⟨rfl, rfl, rfl, rfl, rfl, ?_, ?_, rfl, rfl, rfl,
    ⟨_, _, clean_eq m g path h, rfl⟩, rfl⟩
  · unfold setGeometry
    split <;> rfl
  · cases hv : isArr (resolveMat e) <;> simp [baseColor, getSize, hv]

/-- Witness for claim C8: the amended statement applied to `meshW` and
concrete inputs. -/
theorem c8_getSize_cache_w :
    getSize meshW = meshW.size
    ∧ getSize (receiveSizeChange 1 2 3 meshW) = [1, 2, 3]
    ∧ getSize (receiveTransformChange (Val.str "V") meshW) = getSize meshW
    ∧ getSize (receiveOriginChange (Val.str "V") meshW) = getSize meshW
    ∧ getSize (receiveOpacityChange (Val.str "V") meshW) = getSize meshW
    ∧ getSize (setGeometry ⟨2, 20, ⟨Val.str "T", Val.str "D", [], [], [], []⟩⟩
        meshW) = getSize meshW
    ∧ getSize (baseColor (MatInput.plain (Val.num 5)) meshW) = getSize meshW
    ∧ getSize (normal (MatInput.plain (Val.num 5)) meshW) = getSize meshW
    ∧ getSize (glossiness (MatInput.plain (Val.num 5)) meshW) = getSize meshW
    ∧ getSize (metallic (MatInput.plain (Val.num 5)) meshW) = getSize meshW
    ∧ (∃ out m1, clean (Val.str "P") meshW = (out, some (m1, true))
        ∧ getSize m1 = getSize meshW)
    ∧ getSize (construct 0 (Val.str "M") (Val.str "O")) = [] :=
  c8_getSize_cache meshW geomW ⟨2, 20, ⟨Val.str "T", Val.str "D", [], [], [], []⟩⟩
    1 2 3 (Val.str "V") (Val.str "P") (Val.str "M") (Val.str "O")
    (MatInput.plain (Val.num 5)) 0 rfl

/-- Claim C9: assigning `baseColor` makes exactly one `dirtyRenderable`
call, while assigning `normal`, `glossiness` or `metallic` makes none; and
apart from the dirty bookkeeping, the opcode queue, and (for `baseColor`)
the cached `_baseColor` field, no other renderable state changes under any
of the four assignments. -/
theorem c9_dirty_asymmetry (m : Mesh) (e : MatInput) :
    (baseColor e m).dirtyCount = m.dirtyCount + 1
    ∧ (normal e m).dirtyCount = m.dirtyCount
    ∧ (glossiness e m).dirtyCount = m.dirtyCount
    ∧ (metallic e m).dirtyCount = m.dirtyCount
    ∧ (baseColor e m).id = m.id
    ∧ (baseColor e m).size = m.size
    ∧ (baseColor e m).geometry = m.geometry
    ∧ (baseColor e m).uniforms = m.uniforms
    ∧ (baseColor e m).buffers = m.buffers
    ∧ (normal e m).id = m.id
    ∧ (normal e m).size = m.size
    ∧ (normal e m).geometry = m.geometry
    ∧ (normal e m).baseColorCache = m.baseColorCache
    ∧ (normal e m).uniforms = m.uniforms
    ∧ (normal e m).buffers = m.buffers
    ∧ (glossiness e m).id = m.id
    ∧ (glossiness e m).size = m.size
    ∧ (glossiness e m).geometry = m.geometry
    ∧ (glossiness e m).baseColorCache = m.baseColorCache
    ∧ (glossiness e m).uniforms = m.uniforms
    ∧ (glossiness e m).buffers = m.buffers
    ∧ (metallic e m).id = m.id
    ∧ (metallic e m).size = m.size
    ∧ (metallic e m).geometry = m.geometry
    ∧ (metallic e m).baseColorCache = m.baseColorCache
    ∧ (metallic e m).uniforms = m.uniforms
    ∧ (metallic e m).buffers = m.buffers := by
  cases hv : isArr (resolveMat e) <;>
    simp [baseColor, normal, glossiness, metallic, hv]

/-- Claim C10: whenever `clean` runs to completion (a geometry is
assigned), the queue-drain loop removes exactly as many entries as the
queue held, so the queue is empty at return and the result is `true`;
`clean` can never complete with a `false` result. -/
theorem c10_clean_full_drain (m : Mesh) (g : Geometry) (path : Val)
    (h : m.geometry = some g) :
    ∃ out m1, clean path m = (out, some (m1, true)) ∧ m1.queue = [] :=
  ⟨_, _, clean_eq m g path h, rfl⟩

/-- Witness for claim C10: the full-drain statement applied to `meshW`. -/
theorem c10_clean_full_drain_w :
    ∃ out m1, clean (Val.str "P") meshW = (out, some (m1, true))
      ∧ m1.queue = [] :=
  c10_clean_full_drain meshW geomW (Val.str "P") rfl
